import Mathlib

/-!
Verification of the Laptop-Price-Predictor service (FastAPI application).

Shallow embedding of the request-scoped prediction pipeline:
  * price normalization heuristics (model layer `LaptopPriceModel._process_prediction`
    and service layer `PredictionService._apply_price_correction`),
  * the TTL cache (`utils/cache.py`, `SimpleCache`),
  * input validation (`models/user_input_schema_model.py`, `LaptopFeatures`),
  * cache-key derivation (`PredictionService._create_cache_key`),
  * price formatting (`LaptopPriceModel.format_price`),
  * fire-and-forget persistence (`PredictionService._save_prediction_record`),
  * model loading (`LaptopPriceModel.load_model`) and the HTTP routers
    (`routers/v1/predictions.py`).

Python floats are idealized as real numbers (`ℝ`) where `exp` is involved and
as rationals (`ℚ`) elsewhere, so that the discrete parts stay executable.
-/

namespace LaptopPrice

/-! ## Price normalization (model layer and service layer) -/

/-- Embedding of `LaptopPriceModel._process_prediction` (prediction_model.py,
lines 96-110), scalar branch: if the value is below 100 apply `np.exp`; if the
result is below 1000 multiply by 1000; then clamp with
`max(1000, min(value, 500000))`. -/
noncomputable def processPrediction (x : ℝ) : ℝ :=
  let v1 := if x < 100 then Real.exp x else x
  let v2 := if v1 < 1000 then v1 * 1000 else v1
  max 1000 (min v2 500000)

/-- Embedding of `PredictionService._apply_price_correction`
(prediction_service.py, lines 86-103): if the value is below 100 apply
`np.exp`; if the result is below 10000 multiply by 100; then clamp with
`max(10000, min(price, 500000))`. -/
noncomputable def applyPriceCorrection (price : ℝ) : ℝ :=
  let p1 := if price < 100 then Real.exp price else price
  let p2 := if p1 < 10000 then p1 * 100 else p1
  max 10000 (min p2 500000)

/-- Rule 1 as the spec words it: if the raw value is below 100,
exponentiate it. -/
noncomputable def specExpRule (x : ℝ) : ℝ :=
  if x < 100 then Real.exp x else x

/-- Rule 2 as the spec words it: if the value is below the scale threshold,
multiply by the scale factor. -/
noncomputable def specScaleRule (threshold factor x : ℝ) : ℝ :=
  if x < threshold then x * factor else x

/-- Clamping into a plausible band as the spec words it. -/
noncomputable def specClamp (lo hi x : ℝ) : ℝ :=
  max lo (min x hi)

/-- The service-layer correction assembled from the spec's wording: rule 1,
then rule 2 with threshold 10000 and factor 100, then clamp into
[10000, 500000]. -/
noncomputable def specServiceCorrection (x : ℝ) : ℝ :=
  specClamp 10000 500000 (specScaleRule 10000 100 (specExpRule x))

/-- C1: for every real raw model output, the service-layer price correction
computes exactly the spec's two rules in strict order (exp below 100, then
scale by 100 below 10000) followed by the clamp into [10000, 500000]. -/
theorem C1_service_correction_follows_spec_rules (x : ℝ) :
    applyPriceCorrection x = specServiceCorrection x := by
  unfold applyPriceCorrection specServiceCorrection specClamp specScaleRule specExpRule
  rfl

/-- C2: every model-layer output lies in [1000, 500000] and every
service-layer output lies in [10000, 500000]. -/
theorem C2_normalization_outputs_in_band (x : ℝ) :
    (1000 ≤ processPrediction x ∧ processPrediction x ≤ 500000) ∧
    (10000 ≤ applyPriceCorrection x ∧ applyPriceCorrection x ≤ 500000) := by
  unfold processPrediction applyPriceCorrection
  refine ⟨⟨le_max_left _ _, ?_⟩, ⟨le_max_left _ _, ?_⟩⟩
  · exact max_le (by norm_num) (min_le_right _ _)
  · exact max_le (by norm_num) (min_le_right _ _)

/-! ## The TTL cache (`utils/cache.py`, class `SimpleCache`) -/

/-- Embedding of the `SimpleCache` state: the Python dict `self._cache`
mapping keys to `(value, timestamp)` pairs, together with the configured
`self._ttl`.  `time.time()` values are idealized as rationals. -/
structure SimpleCache (α : Type) where
  store : String → Option (α × ℚ)
  ttl : ℚ

/-- The default TTL from `SimpleCache.__init__(self, ttl: int = 300)`. -/
def defaultTTL : ℚ := 300

/-- Embedding of `SimpleCache.set` (cache.py, lines 24-26): store
`(value, time.time())` under the key, overwriting any previous entry.
The current clock reading is passed explicitly. -/
def SimpleCache.set (c : SimpleCache α) (key : String) (value : α) (now : ℚ) :
    SimpleCache α :=
  { c with store := fun k => if k = key then some (value, now) else c.store k }

/-- Embedding of `SimpleCache.get` (cache.py, lines 14-22): on a present key,
return the value if `now - timestamp < ttl`, otherwise delete the entry and
return `None`.  Returns the result together with the possibly-updated cache
state. -/
def SimpleCache.get (c : SimpleCache α) (key : String) (now : ℚ) :
    Option α × SimpleCache α :=
  match c.store key with
  | some (value, timestamp) =>
      if now - timestamp < c.ttl then (some value, c)
      else (none, { c with store := fun k => if k = key then none else c.store k })
  | none => (none, c)

/-- Embedding of `SimpleCache.clear` (cache.py, lines 28-30). -/
def SimpleCache.clear (c : SimpleCache α) : SimpleCache α :=
  { c with store := fun _ => none }

/-- C4: after `set k v` at time `t`, a `get k` at time `now` hits and returns
`v` while `now - t < ttl`, and once `now - t ≥ ttl` it misses and removes the
stale entry from the cache at that access. -/
theorem C4_cache_roundtrip_with_lazy_expiry (c : SimpleCache α) (k : String)
    (v : α) (t now : ℚ) :
    (now - t < c.ttl → ((c.set k v t).get k now).1 = some v) ∧
    (c.ttl ≤ now - t →
      ((c.set k v t).get k now).1 = none ∧
      ((c.set k v t).get k now).2.store k = none) := by
  constructor
  · intro h
    simp [SimpleCache.get, SimpleCache.set, h]
  · intro h
    have h' : ¬ now - t < c.ttl := not_lt.mpr h
    simp [SimpleCache.get, SimpleCache.set, h']

/-- C4 witness: with the default TTL of 300 seconds, an entry set at time 0 is
returned at time 299 and is a miss (with the entry removed) at time 300. -/
theorem C4_cache_roundtrip_witness :
    (((⟨fun _ => none, defaultTTL⟩ : SimpleCache ℕ).set "k" 7 0).get "k" 299).1
        = some 7 ∧
    (((⟨fun _ => none, defaultTTL⟩ : SimpleCache ℕ).set "k" 7 0).get "k" 300).1
        = none ∧
    (((⟨fun _ => none, defaultTTL⟩ : SimpleCache ℕ).set "k" 7 0).get "k" 300).2.store "k"
        = none := by
  refine ⟨?_, ?_⟩
  · exact (C4_cache_roundtrip_with_lazy_expiry _ "k" 7 0 299).1 (by norm_num [defaultTTL])
  · exact (C4_cache_roundtrip_with_lazy_expiry _ "k" 7 0 300).2 (by norm_num [defaultTTL])

/-! ## Input validation (`models/user_input_schema_model.py`) -/

/-- The `Company` enum (user_input_schema_model.py, lines 6-16). -/
inductive Company
  | apple | hp | acer | asus | dell | lenovo | msi | toshiba | samsung | other
deriving DecidableEq, Repr

/-- The `TypeName` enum (lines 19-25). -/
inductive TypeName
  | ultrabook | notebook | netbook | gaming | twoInOne | workstation
deriving DecidableEq, Repr

/-- The `CpuBrand` enum (lines 28-33). -/
inductive CpuBrand
  | intelCoreI3 | intelCoreI5 | intelCoreI7 | amdProcessor | otherIntel
deriving DecidableEq, Repr

/-- The `GpuBrand` enum (lines 36-39). -/
inductive GpuBrand
  | intel | amd | nvidia
deriving DecidableEq, Repr

/-- The `OS` enum (lines 42-45). -/
inductive OS
  | mac | windows | linux
deriving DecidableEq, Repr

/-- A validated `LaptopFeatures` record (lines 48-62): the twelve typed
fields after Pydantic validation.  Floats (`weight`, `ppi`) are idealized as
rationals. -/
structure LaptopFeatures where
  company : Company
  type_name : TypeName
  ram : ℤ
  weight : ℚ
  touchscreen : ℤ
  ips : ℤ
  ppi : ℚ
  cpu_brand : CpuBrand
  hdd : ℤ
  ssd : ℤ
  gpu_brand : GpuBrand
  os : OS
deriving DecidableEq, Repr

/-- The untyped request body before validation: each of the twelve fields may
be present or omitted.  (Enumerated fields are carried at their enum type;
a value outside the enumeration is a Pydantic failure orthogonal to the
claims checked here.) -/
structure RawInput where
  company : Option Company
  type_name : Option TypeName
  ram : Option ℤ
  weight : Option ℚ
  touchscreen : Option ℤ
  ips : Option ℤ
  ppi : Option ℚ
  cpu_brand : Option CpuBrand
  hdd : Option ℤ
  ssd : Option ℤ
  gpu_brand : Option GpuBrand
  os : Option OS
deriving DecidableEq, Repr

/-- The enumerated RAM values accepted by `LaptopFeatures.validate_ram`
(lines 64-69): `valid_ram = [2, 4, 6, 8, 12, 16, 24, 32, 64]`. -/
def validRam : List ℤ := [2, 4, 6, 8, 12, 16, 24, 32, 64]

/-- The full RAM constraint: the `Field(..., ge=2, le=64)` bounds combined
with the `validate_ram` membership check. -/
def ramFieldOk (v : ℤ) : Bool :=
  (2 ≤ v && v ≤ 64) && validRam.contains v

/-- Validation errors for the `ram` field: required (`Field(...)`), bounded
by `ge=2, le=64`, and restricted by `validate_ram` to the enumerated set. -/
def ramErrors (r : RawInput) : List String :=
  match r.ram with
  | none => ["ram: field required"]
  | some v => if ramFieldOk v then [] else ["RAM must be one of the enumerated values"]

/-- Validation errors for the required categorical fields
(`Field(...)` with no default): an error when the field is omitted. -/
def requiredError (name : String) (o : Option α) : List String :=
  match o with
  | none => [name ++ ": field required"]
  | some _ => []

/-- Validation errors for a required numeric field with inclusive bounds. -/
def boundedRequiredError (name : String) (lo hi : ℚ) (o : Option ℚ) : List String :=
  match o with
  | none => [name ++ ": field required"]
  | some v => if lo ≤ v && v ≤ hi then [] else [name ++ ": out of range"]

/-- Validation errors for an optional integer field with default 0 and
inclusive bounds (`Field(0, ge=…, le=…)`): an omitted field is not an
error. -/
def boundedDefaultedError (name : String) (lo hi : ℤ) (o : Option ℤ) : List String :=
  match o with
  | none => []
  | some v => if lo ≤ v && v ≤ hi then [] else [name ++ ": out of range"]

/-- All validation errors of a raw request against the `LaptopFeatures`
schema, in field order.  `company`, `type_name`, `ram`, `weight`, `ppi`,
`cpu_brand`, `gpu_brand` and `os` are declared `Field(...)` (required);
`touchscreen`, `ips`, `hdd` and `ssd` are declared `Field(0, …)`
(default 0). -/
def fieldErrors (r : RawInput) : List String :=
  requiredError "company" r.company ++
  requiredError "type_name" r.type_name ++
  ramErrors r ++
  boundedRequiredError "weight" (mkRat 1 2) 5 r.weight ++
  boundedDefaultedError "touchscreen" 0 1 r.touchscreen ++
  boundedDefaultedError "ips" 0 1 r.ips ++
  boundedRequiredError "ppi" 90 400 r.ppi ++
  requiredError "cpu_brand" r.cpu_brand ++
  boundedDefaultedError "hdd" 0 2000 r.hdd ++
  boundedDefaultedError "ssd" 0 2048 r.ssd ++
  requiredError "gpu_brand" r.gpu_brand ++
  requiredError "os" r.os

/-- Embedding of Pydantic validation of `LaptopFeatures`: succeed exactly
when no constraint is violated, producing the canonical record with
`touchscreen`, `ips`, `hdd` and `ssd` defaulted to 0 when omitted; otherwise
fail with the collected error list. -/
def validate (r : RawInput) : Except (List String) LaptopFeatures :=
  if h : r.company.isSome ∧ r.type_name.isSome ∧ r.ram.isSome ∧
      r.weight.isSome ∧ r.ppi.isSome ∧ r.cpu_brand.isSome ∧
      r.gpu_brand.isSome ∧ r.os.isSome ∧ fieldErrors r = [] then
    .ok
      { company := r.company.get h.1
        type_name := r.type_name.get h.2.1
        ram := r.ram.get h.2.2.1
        weight := r.weight.get h.2.2.2.1
        touchscreen := r.touchscreen.getD 0
        ips := r.ips.getD 0
        ppi := r.ppi.get h.2.2.2.2.1
        cpu_brand := r.cpu_brand.get h.2.2.2.2.2.1
        hdd := r.hdd.getD 0
        ssd := r.ssd.getD 0
        gpu_brand := r.gpu_brand.get h.2.2.2.2.2.2.1
        os := r.os.get h.2.2.2.2.2.2.2.1 }
  else
    .error (fieldErrors r)

/-- Does an `Except` result hold a success value?  (`Except.isOk`.) -/
def exceptOk : Except ε α → Bool
  | .ok _ => true
  | .error _ => false

/-- The documented example request (user_input_schema_model.py, lines 72-87):
Dell Notebook, ram 8, weight 2.0, touchscreen 0, ips 1, ppi 141.21,
Intel Core i5, hdd 0, ssd 256, Intel GPU, Windows. -/
def exampleRaw : RawInput :=
  { company := some .dell
    type_name := some .notebook
    ram := some 8
    weight := some 2
    touchscreen := some 0
    ips := some 1
    ppi := some (mkRat 14121 100)
    cpu_brand := some .intelCoreI5
    hdd := some 0
    ssd := some 256
    gpu_brand := some .intel
    os := some .windows }

/-- Helper: the combined RAM constraint passes exactly on the nine
enumerated values. -/
theorem ramFieldOk_iff_mem (v : ℤ) : ramFieldOk v = true ↔ v ∈ validRam := by
  constructor
  · intro h
    simp only [ramFieldOk, Bool.and_eq_true] at h
    simpa using h.2
  · intro h
    have hb : 2 ≤ v ∧ v ≤ 64 := by
      simp only [validRam, List.mem_cons, List.not_mem_nil, or_false] at h
      rcases h with h | h | h | h | h | h | h | h | h <;> omega
    simp only [ramFieldOk, Bool.and_eq_true, decide_eq_true_eq]
    exact ⟨⟨hb.1, hb.2⟩, by simpa using h⟩

/-- C5 counterexample: the documented example request with `hdd` omitted
still validates (with `hdd` defaulted to 0), refuting the claim that omitting
the HDD size makes validation fail. -/
theorem C5_counterexample_hdd_not_required :
    exceptOk (validate { exampleRaw with hdd := none }) = true := by decide

/-- C5 (amended): `touchscreen`, `ips`, `hdd` and `ssd` are defaulted to 0
when omitted; the remaining eight fields (company, type, RAM, weight, pixel
density, CPU class, GPU class, OS) are required, and omitting any of them
makes validation fail. -/
theorem C5_required_and_defaulted_fields :
    (∀ r : RawInput,
      r.company = none ∨ r.type_name = none ∨ r.ram = none ∨ r.weight = none ∨
        r.ppi = none ∨ r.cpu_brand = none ∨ r.gpu_brand = none ∨ r.os = none →
      exceptOk (validate r) = false) ∧
    (∀ (r : RawInput) (f : LaptopFeatures), validate r = .ok f →
      (r.touchscreen = none → f.touchscreen = 0) ∧
      (r.ips = none → f.ips = 0) ∧
      (r.hdd = none → f.hdd = 0) ∧
      (r.ssd = none → f.ssd = 0)) := by
  constructor
  · intro r h
    unfold validate
    split
    · rename_i hc
      rcases h with h | h | h | h | h | h | h | h <;> simp [h] at hc
    · rfl
  · intro r f hok
    unfold validate at hok
    split at hok
    · cases hok
      refine ⟨?_, ?_, ?_, ?_⟩ <;> intro hn <;> simp [hn]
    · exact absurd hok (by simp)

/-- C5 witness: omitting `company` from the example request fails validation,
and the example request with `touchscreen` omitted validates to a record with
`touchscreen = 0`. -/
theorem C5_required_and_defaulted_fields_witness :
    exceptOk (validate { exampleRaw with company := none }) = false ∧
    ({ company := .dell, type_name := .notebook, ram := 8, weight := 2,
       touchscreen := 0, ips := 1, ppi := mkRat 14121 100,
       cpu_brand := .intelCoreI5, hdd := 0, ssd := 256, gpu_brand := .intel,
       os := .windows : LaptopFeatures }).touchscreen = 0 := by
  constructor
  · exact C5_required_and_defaulted_fields.1 _ (Or.inl rfl)
  · exact (C5_required_and_defaulted_fields.2
      { exampleRaw with touchscreen := none } _ rfl).1 rfl

/-- C8: the RAM constraint passes exactly on the nine enumerated values
{2, 4, 6, 8, 12, 16, 24, 32, 64}, and any request whose `ram` value lies
outside this set fails validation. -/
theorem C8_ram_enumeration :
    (∀ v : ℤ, ramFieldOk v = true ↔ v ∈ validRam) ∧
    (∀ (r : RawInput) (v : ℤ), r.ram = some v → v ∉ validRam →
      exceptOk (validate r) = false) := by
  constructor
  · exact ramFieldOk_iff_mem
  · intro r v hram hmem
    have hok : ramFieldOk v = false := by
      cases hv : ramFieldOk v
      · rfl
      · exact absurd ((ramFieldOk_iff_mem v).mp hv) hmem
    have hre : ramErrors r = ["RAM must be one of the enumerated values"] := by
      simp [ramErrors, hram, hok]
    have hne : fieldErrors r ≠ [] := by
      intro hcontra
      simp only [fieldErrors, List.append_eq_nil] at hcontra
      rw [hre] at hcontra
      simp at hcontra
    unfold validate
    rw [dif_neg]
    · rfl
    · exact fun hc => hne hc.2.2.2.2.2.2.2.2

/-- C8 witness: RAM 8 passes the constraint; the example request with RAM 5
fails validation. -/
theorem C8_ram_enumeration_witness :
    ramFieldOk 8 = true ∧
    exceptOk (validate { exampleRaw with ram := some 5 }) = false := by
  constructor
  · exact (C8_ram_enumeration.1 8).mpr (by decide)
  · exact C8_ram_enumeration.2 { exampleRaw with ram := some 5 } 5 rfl (by decide)

/-! ## Cache-key derivation (`PredictionService._create_cache_key`) -/

/-- Python runtime errors arising on the embedded code paths. -/
inductive PyError
  | attributeError (msg : String)
  | fileNotFound (msg : String)
deriving DecidableEq, Repr

/-- The message text carried to the HTTP layer for an error. -/
def PyError.message : PyError → String
  | .attributeError msg => msg
  | .fileNotFound msg => msg

/-- Embedding of `PredictionService._create_cache_key` (prediction_service.py,
lines 81-84).  The body first executes `feature_dict = features.model()`, but
`LaptopFeatures` (a Pydantic model) defines no attribute `model` — the dump
method is `model_dump`, used correctly in `predict_price` in the same file —
so Python attribute lookup raises `AttributeError` before the fingerprint
`f"prediction:\x7bhash(frozenset(feature_dict.items()))\x7d"` on the next
line is ever computed. -/
def createCacheKey (_features : LaptopFeatures) : Except PyError String :=
  .error (.attributeError "LaptopFeatures object has no attribute model")

/-- The validated documented example record: Dell Notebook, ram 8, weight 2.0,
touchscreen 0, ips 1, ppi 141.21, Intel Core i5, hdd 0, ssd 256, Intel GPU,
Windows. -/
def exampleFeatures : LaptopFeatures :=
  { company := .dell, type_name := .notebook, ram := 8, weight := 2,
    touchscreen := 0, ips := 1, ppi := mkRat 14121 100,
    cpu_brand := .intelCoreI5, hdd := 0, ssd := 256, gpu_brand := .intel,
    os := .windows }

/-- C3: evaluating the cache-key derivation on the documented example record
does not succeed: the `features.model()` call raises `AttributeError`, so no
fingerprint is ever produced for any record. -/
theorem C3_cache_key_derivation_fails :
    createCacheKey exampleFeatures =
      .error (.attributeError "LaptopFeatures object has no attribute model") ∧
    ∀ f : LaptopFeatures, exceptOk (createCacheKey f) = false := by
  exact ⟨rfl, fun _ => rfl⟩

/-! ## The history endpoint (`routers/v1/predictions.py`) -/

/-- The outcome of `GET /predictions`: either an HTTP error raised before any
repository access, or the limit forwarded to
`prediction_service.get_prediction_history` (which passes it through to the
repository query). -/
inductive HistoryOutcome
  | httpError (status : ℕ) (detail : String)
  | queried (limit : ℤ)
deriving DecidableEq, Repr

/-- Embedding of `get_prediction_history` (routers/v1/predictions.py, lines
45-57): a `limit` greater than 1000 is rejected with HTTP 400 before the
service is called; otherwise the limit is forwarded unchanged. -/
def getPredictionHistory (limit : ℤ) : HistoryOutcome :=
  if limit > 1000 then .httpError 400 "Limit cannot exceed 1000"
  else .queried limit

/-- C10: a request with limit greater than 1000 fails with HTTP 400 and never
reaches the persistence store, and any limit at most 1000 is forwarded to the
history query. -/
theorem C10_history_limit_bound (limit : ℤ) :
    (limit > 1000 →
      getPredictionHistory limit = .httpError 400 "Limit cannot exceed 1000") ∧
    (limit ≤ 1000 → getPredictionHistory limit = .queried limit) := by
  constructor
  · intro h
    simp [getPredictionHistory, h]
  · intro h
    simp [getPredictionHistory, not_lt.mpr h]

/-- C10 witness: limit 1001 is rejected with HTTP 400; limit 7 is forwarded
to the query. -/
theorem C10_history_limit_bound_witness :
    getPredictionHistory 1001 = .httpError 400 "Limit cannot exceed 1000" ∧
    getPredictionHistory 7 = .queried 7 := by
  exact ⟨(C10_history_limit_bound 1001).1 (by norm_num),
    (C10_history_limit_bound 7).2 (by norm_num)⟩

/-! ## Persistence (`PredictionService._save_prediction_record`) and the
post-validation pipeline core -/

/-- A `PredictionResponse` (user_input_schema_model.py, lines 90-97), with
the float price idealized as a real number. -/
structure PredictionResponse where
  prediction_id : String
  predicted_price : ℝ
  price_formatted : String
  features : LaptopFeatures

/-- A `PredictionRecord` destined for MongoDB (user_input_schema_model.py,
lines 124-131). -/
structure PredictionRecordM where
  input_features : LaptopFeatures
  output_prediction : ℝ
  price_formatted : String
  timestamp : String
  prediction_id : String

/-- Embedding of `PredictionService._save_prediction_record`
(prediction_service.py, lines 105-120): build a `PredictionRecord` and write
it through the repository inside `try/except`; any exception raised by the
write is caught and logged, and the coroutine returns normally.  The
repository write is a parameter (MongoDB is an external collaborator).
Returns the exception outcome visible outside the function together with the
log line emitted. -/
def savePredictionRecord (save : PredictionRecordM → Except String Unit)
    (features : LaptopFeatures) (timestamp : String)
    (response : PredictionResponse) : Except PyError Unit × String :=
  let record : PredictionRecordM :=
    { input_features := features
      output_prediction := response.predicted_price
      price_formatted := response.price_formatted
      timestamp := timestamp
      prediction_id := response.prediction_id }
  match save record with
  | .ok _ => (.ok (), "Prediction saved with ID: " ++ response.prediction_id)
  | .error e => (.ok (), "Error saving prediction: " ++ e)

/-- Embedding of the cache-miss path of `PredictionService.predict_price`
(prediction_service.py, lines 42-70), after the cache lookup: run the model
(`LaptopPriceModel.predict`, whose scalar output passes through
`_process_prediction`), apply `_apply_price_correction`, assign the fresh id,
format the price (`format_price` is a parameter here; its rational-arithmetic
model appears below as `format_price`), assemble the response, cache it, and
fire off the background save.  The raw regressor output, the generated uuid,
the clock and the repository write are parameters. -/
noncomputable def predictCore (fmt : ℝ → String) (rawOutput : ℝ)
    (pid : String) (now : ℚ) (timestamp : String) (features : LaptopFeatures)
    (cacheKey : String) (cache : SimpleCache PredictionResponse)
    (save : PredictionRecordM → Except String Unit) :
    PredictionResponse × SimpleCache PredictionResponse ×
      (Except PyError Unit × String) :=
  let modelPrice := processPrediction rawOutput
  let price := applyPriceCorrection modelPrice
  let response : PredictionResponse :=
    { prediction_id := pid
      predicted_price := price
      price_formatted := fmt price
      features := features }
  let cache' := cache.set cacheKey response now
  let saveOutcome := savePredictionRecord save features timestamp response
  (response, cache', saveOutcome)

/-- C6: the background save swallows every persistence failure (it never
raises), and the response the pipeline returns is the same whether the
repository write succeeds or fails. -/
theorem C6_persistence_failure_never_surfaces (fmt : ℝ → String)
    (rawOutput : ℝ) (pid : String) (now : ℚ) (timestamp : String)
    (features : LaptopFeatures) (cacheKey : String)
    (cache : SimpleCache PredictionResponse)
    (save₁ save₂ : PredictionRecordM → Except String Unit) :
    (predictCore fmt rawOutput pid now timestamp features cacheKey cache
        save₁).2.2.1 = .ok () ∧
    (predictCore fmt rawOutput pid now timestamp features cacheKey cache
        save₁).1 =
      (predictCore fmt rawOutput pid now timestamp features cacheKey cache
        save₂).1 := by
  constructor
  · unfold predictCore savePredictionRecord
    dsimp only
    split <;> rfl
  · rfl

/-! ## Model loading (`LaptopPriceModel.load_model`) and the predict route -/

/-- The configured artifact paths (`core/config.py`, `Settings`): the
serialized regressor and the reference dataframe. -/
structure ModelSettings where
  model_path : String
  data_path : String

/-- Embedding of `LaptopPriceModel.load_model` (prediction_model.py, lines
22-49) for a not-yet-loaded model, with the filesystem abstracted as the set
of existing paths: a missing model file or data file raises
`FileNotFoundError`, which the surrounding `except` block logs and re-raises;
there is no retry.  Pickle deserialization of present files is opaque and
modelled as succeeding. -/
def loadModel (pathExists : String → Bool) (s : ModelSettings) :
    Except PyError Unit :=
  if pathExists s.model_path = false then
    .error (.fileNotFound ("Model file not found: " ++ s.model_path))
  else if pathExists s.data_path = false then
    .error (.fileNotFound ("Data file not found: " ++ s.data_path))
  else .ok ()

/-- The HTTP outcome of `POST /predict`. -/
inductive PredictOutcome
  | ok (resp : PredictionResponse)
  | httpError (status : ℕ) (detail : String)

/-- Embedding of the router `predict_price` (routers/v1/predictions.py, lines
19-26): the service call is wrapped in `try/except`; any exception becomes an
`HTTPException` with status 500 and detail `"Prediction failed: …"`, and no
prediction body is returned. -/
def predictEndpoint (serviceResult : Except PyError PredictionResponse) :
    PredictOutcome :=
  match serviceResult with
  | .ok r => .ok r
  | .error e => .httpError 500 ("Prediction failed: " ++ e.message)

/-- C7: when either artifact path is missing, `load_model` fails with
`FileNotFoundError` (no value is produced and nothing is retried), and every
error propagating out of the service surfaces to the caller as HTTP 500
rather than a prediction. -/
theorem C7_missing_artifact_fails_load (pathExists : String → Bool)
    (s : ModelSettings)
    (h : pathExists s.model_path = false ∨ pathExists s.data_path = false) :
    (∃ msg, loadModel pathExists s = .error (.fileNotFound msg)) ∧
    (∀ e : PyError, predictEndpoint (.error e) =
      .httpError 500 ("Prediction failed: " ++ e.message)) := by
  refine ⟨?_, fun _ => rfl⟩
  rcases h with h | h
  · exact ⟨"Model file not found: " ++ s.model_path, by simp [loadModel, h]⟩
  · cases hm : pathExists s.model_path
    · exact ⟨"Model file not found: " ++ s.model_path, by simp [loadModel, hm]⟩
    · exact ⟨"Data file not found: " ++ s.data_path, by simp [loadModel, hm, h]⟩

/-- C7 witness: with an empty filesystem and the default configured paths,
loading fails with `FileNotFoundError` and a service error surfaces as
HTTP 500. -/
theorem C7_missing_artifact_fails_load_witness :
    (∃ msg, loadModel (fun _ => false)
      ⟨"ml_model/linear_regression.pkl", "ml_model/df.pkl"⟩ =
        .error (.fileNotFound msg)) ∧
    (∀ e : PyError, predictEndpoint (.error e) =
      .httpError 500 ("Prediction failed: " ++ e.message)) :=
  C7_missing_artifact_fails_load (fun _ => false)
    ⟨"ml_model/linear_regression.pkl", "ml_model/df.pkl"⟩ (Or.inl rfl)

/-! ## Price formatting (`LaptopPriceModel.format_price`)

`format_price` renders the price through the f-string `f"₹\x7bprice:,.2f\x7d"`:
currency symbol, integer part with a comma every three digits, a dot, and
exactly two decimal digits.  The float is idealized as a rational and the
decimal rendering is modelled digit by digit. -/

/-- Decimal digits of `n`, least significant first, computed with explicit
fuel so that the kernel can evaluate it (`Nat.digits` is defined by
well-founded recursion). -/
def natDigitsRevGo : ℕ → ℕ → List ℕ
  | _, 0 => []
  | 0, _ + 1 => []
  | fuel + 1, m + 1 => (m + 1) % 10 :: natDigitsRevGo fuel ((m + 1) / 10)

/-- Decimal digits of `n`, least significant first. -/
def natDigitsRev (n : ℕ) : List ℕ :=
  natDigitsRevGo n n

/-- The decimal digit characters of a natural number, least significant
first; zero renders as "0". -/
def intDigitChars (n : ℕ) : List Char :=
  if n = 0 then ['0'] else (natDigitsRev n).map Nat.digitChar

/-- Insert a comma before every digit that follows a full group of three,
walking the digit characters least-significant first; `k` counts the digits
emitted since the last comma. -/
def groupDigitsAux : ℕ → List Char → List Char
  | _, [] => []
  | k, c :: rest =>
      if k = 3 then ',' :: c :: groupDigitsAux 1 rest
      else c :: groupDigitsAux (k + 1) rest

/-- The integer part of the price with thousands separators (the `,` option
of the format spec), most significant digit first. -/
def groupThousands (n : ℕ) : List Char :=
  (groupDigitsAux 0 (intDigitChars n)).reverse

/-- Rounding of the scaled price to an integer number of cents, as the
format spec's `.2f` does (idealized decimal rounding; the exact tie-breaking
of IEEE floats is immaterial to the formatting shape). -/
def roundHalfUp (q : ℚ) : ℤ :=
  ⌊q⌋ + (if mkRat 1 2 ≤ q - ⌊q⌋ then 1 else 0)

/-- The two decimal digits of the cent part (`00`–`99`). -/
def twoDigitChars (m : ℕ) : List Char :=
  [Nat.digitChar (m / 10), Nat.digitChar (m % 10)]

/-- The body of the canonical format after the currency symbol: optional
sign, grouped integer part, dot, two decimal digits. -/
def formatCents (cents : ℤ) : String :=
  (if cents < 0 then "-" else "") ++
    String.mk (groupThousands (cents.natAbs / 100)) ++ "." ++
    String.mk (twoDigitChars (cents.natAbs % 100))

/-- Embedding of `LaptopPriceModel.format_price` (prediction_model.py, lines
112-120): prices below 100 are first multiplied by 1000, then the value is
rendered as `f"₹\x7bprice:,.2f\x7d"` — currency symbol, thousands separators,
two decimal places.  The `except` fallback branch (currency symbol and two
decimals without separators) is unreachable in this model because rendering a
number cannot raise. -/
def format_price (price : ℚ) : String :=
  "₹" ++ formatCents (roundHalfUp ((if price < 100 then price * 1000 else price) * 100))

/-- Helper: `natDigitsRev` agrees with `Nat.digits 10`. -/
theorem natDigitsRevGo_eq :
    ∀ fuel n : ℕ, n ≤ fuel → natDigitsRevGo fuel n = Nat.digits 10 n
  | _, 0, _ => by simp [natDigitsRevGo]
  | 0, _ + 1, h => absurd h (by omega)
  | fuel + 1, m + 1, h => by
    rw [natDigitsRevGo, Nat.digits_def' (by norm_num : (1:ℕ) < 10) (Nat.succ_pos m),
      natDigitsRevGo_eq fuel ((m + 1) / 10) (by omega)]

/-- Helper: a number of at least five digits gets at least one comma from
the grouping pass. -/
theorem comma_mem_groupDigitsAux :
    ∀ (l : List Char) (k : ℕ), k ≤ 3 → 4 ≤ l.length + k →
      ',' ∈ groupDigitsAux k l := by
  intro l
  induction l with
  | nil => intro k hk hl; simp at hl; omega
  | cons c rest ih =>
    intro k hk hl
    by_cases h3 : k = 3
    · simp [groupDigitsAux, h3]
    · have hmem : ',' ∈ groupDigitsAux (k + 1) rest :=
        ih (k + 1) (by omega) (by simp only [List.length_cons] at hl; omega)
      simp only [groupDigitsAux, h3, if_false]
      exact List.mem_cons_of_mem _ hmem

/-- Helper: a value of at least 10000 has at least five digit characters. -/
theorem intDigitChars_length (n : ℕ) (h : 10000 ≤ n) :
    5 ≤ (intDigitChars n).length := by
  have hn : n ≠ 0 := by omega
  rw [intDigitChars, if_neg hn, List.length_map, natDigitsRev,
    natDigitsRevGo_eq n n le_rfl]
  by_contra hlt
  push_neg at hlt
  have hpow : n < 10 ^ (Nat.digits 10 n).length :=
    Nat.lt_base_pow_length_digits (by norm_num)
  have hle : (10:ℕ) ^ (Nat.digits 10 n).length ≤ 10 ^ 4 :=
    Nat.pow_le_pow_right (by norm_num) (by omega)
  norm_num at hle
  omega

/-- Helper: digit characters of digits below ten are decimal digits. -/
theorem digitChar_isDigit (d : ℕ) (h : d < 10) :
    (Nat.digitChar d).isDigit = true := by
  interval_cases d <;> rfl

/-- C9: for any price of at least 10000 (every price the pipeline produces),
`format_price` returns the currency symbol ₹ followed by a body that contains
a thousands separator and ends in a dot and exactly two decimal digits. -/
theorem C9_format_price_shape (p : ℚ) (h : 10000 ≤ p) :
    ∃ (mid : List Char) (d1 d2 : Char),
      (format_price p).data = '₹' :: mid ++ ['.', d1, d2] ∧
      ',' ∈ mid ∧ d1.isDigit = true ∧ d2.isDigit = true := by
  have h100 : ¬ p < 100 := not_lt.mpr (by linarith)
  have hfloor : (1000000 : ℤ) ≤ ⌊p * 100⌋ :=
    Int.le_floor.mpr (by push_cast; linarith)
  have hcents : (1000000 : ℤ) ≤ roundHalfUp (p * 100) := by
    unfold roundHalfUp; split <;> omega
  have hneg : ¬ roundHalfUp (p * 100) < 0 := by omega
  have hip : 10000 ≤ (roundHalfUp (p * 100)).natAbs / 100 := by omega
  refine ⟨groupThousands ((roundHalfUp (p * 100)).natAbs / 100),
    Nat.digitChar (((roundHalfUp (p * 100)).natAbs % 100) / 10),
    Nat.digitChar (((roundHalfUp (p * 100)).natAbs % 100) % 10), ?_, ?_, ?_, ?_⟩
  · rw [format_price, if_neg h100, formatCents, if_neg hneg]
    simp [String.data_append, twoDigitChars]
  · rw [groupThousands]
    rw [List.mem_reverse]
    exact comma_mem_groupDigitsAux _ 0 (by omega)
      (by have := intDigitChars_length _ hip; omega)
  · exact digitChar_isDigit _ (by omega)
  · exact digitChar_isDigit _ (by omega)

/-- C9 witness: the formatted string for price 55578 is "₹55,578.00", which
starts with ₹, contains a comma and ends with two decimal digits. -/
theorem C9_format_price_shape_witness :
    format_price 55578 = "₹55,578.00" ∧
    ∃ (mid : List Char) (d1 d2 : Char),
      (format_price 55578).data = '₹' :: mid ++ ['.', d1, d2] ∧
      ',' ∈ mid ∧ d1.isDigit = true ∧ d2.isDigit = true := by
  constructor
  · have h1 : roundHalfUp ((if (55578:ℚ) < 100 then 55578 * 1000 else 55578) * 100)
        = 5557800 := by
      norm_num [roundHalfUp, Rat.mkRat_eq_div]
    unfold format_price
    rw [h1]
    decide
  · exact C9_format_price_shape 55578 (by decide)

end LaptopPrice
